import Mathlib

/-!
Shallow embedding of the kickbox API client (`kickbox.go`, package
`kickboxapi`) and proofs about its request-building and response-decoding
layer.

Conventions of the embedding:
* Go byte slices are `List Char` (all relevant data is ASCII on the paths
  the theorems exercise; where byte-level escaping matters we expand chars
  to their UTF-8 bytes explicitly).
* Go `error` values are `GoError`; distinct `errors.New` identities are
  distinct constructors.  A Go `(T*, error)` return value is
  `Option T × Option GoError`.
* `encoding/json` is an external library; each `json.Unmarshal` call site
  is parameterised by a decode function `List Char → Except String R`.
  The one documented fact the proofs use is that unmarshalling a
  zero-length input always fails.
* The Go `float32` fields (`Sendex`) are modelled by `Rat`; no theorem
  inspects them.
* Struct-field defaults mirror Go zero values (fields absent from JSON are
  left at their zero value by `json.Unmarshal`).
-/

/-- Go `error` values appearing in `kickbox.go`.  Package-level sentinels
(`errors.New` at init), the `fmt.Errorf("Error doing request: %s", ...)`
wrapper, errors produced by `json.Unmarshal`, errors from request
building, and the `errors.New(v.Message)` values built by the response
types each get their own constructor so that distinct Go error identities
stay distinct. -/
inductive GoError where
  | emptyResponse
  | responseHadEmptyStructure
  | unknownErrorVerifyingEmail
  | requestFailed (msg : String)
  | unmarshalFailed (msg : String)
  | serviceMessage (msg : String)
  | buildFailed (msg : String)
  deriving DecidableEq, Repr

/-- `ErrEmptyResponse = errors.New("Empty body response received from service")`. -/
def ErrEmptyResponse : GoError := .emptyResponse

/-- `ErrResponseHadEmptyStructure = errors.New("Could not unmarshall correctly the response")`. -/
def ErrResponseHadEmptyStructure : GoError := .responseHadEmptyStructure

/-- `ErrUnknownErrorVerifyingEmail = errors.New("Unknown error verifying email")`. -/
def ErrUnknownErrorVerifyingEmail : GoError := .unknownErrorVerifyingEmail

/-- `VerifyResponse` struct; field defaults are Go zero values. -/
structure VerifyResponse where
  result : String := ""
  reason : String := ""
  role : Bool := false
  free : Bool := false
  disposable : Bool := false
  acceptAll : Bool := false
  didYouMean : String := ""
  sendex : Rat := 0
  email : String := ""
  user : String := ""
  domain : String := ""
  success : Bool := false
  message : String := ""

/-- `func (v *VerifyResponse) IsValid() bool { return v.Result == "deliverable" }` -/
def VerifyResponse.IsValid (v : VerifyResponse) : Bool :=
  v.result == "deliverable"

/-- `func (v *VerifyResponse) Error() error`. -/
def VerifyResponse.Error (v : VerifyResponse) : Option GoError :=
  if !v.success then
    if v.message != "" then some (.serviceMessage v.message)
    else some ErrUnknownErrorVerifyingEmail
  else none

/-- `VerifyMultipleResponse` struct. -/
structure VerifyMultipleResponse where
  id : Int := 0
  success : Bool := false
  message : String := ""

/-- `func (v *VerifyMultipleResponse) Error() error`. -/
def VerifyMultipleResponse.Error (v : VerifyMultipleResponse) : Option GoError :=
  if !v.success then
    if v.message != "" then some (.serviceMessage v.message)
    else some ErrUnknownErrorVerifyingEmail
  else none

/-- Nested `Progress` struct of `CheckJobStatusResponse`. -/
structure JobProgress where
  deliverable : Int := 0
  undeliverable : Int := 0
  risky : Int := 0
  unknown : Int := 0
  total : Int := 0
  unprocessed : Int := 0

/-- Nested `Stats` struct of `CheckJobStatusResponse`. -/
structure JobStats where
  deliverable : Int := 0
  undeliverable : Int := 0
  risky : Int := 0
  unknown : Int := 0
  sendex : Rat := 0
  addresses : Int := 0

/-- `CheckJobStatusResponse` struct. -/
structure CheckJobStatusResponse where
  id : Int := 0
  name : String := ""
  downloadURL : String := ""
  createdAt : String := ""
  status : String := ""
  progress : JobProgress := {}
  stats : JobStats := {}
  success : Bool := false
  message : String := ""
  error : String := ""
  duration : Int := 0

/-- `func (c *CheckJobStatusResponse) IsStarting() bool`. -/
def CheckJobStatusResponse.IsStarting (c : CheckJobStatusResponse) : Bool :=
  c.status == "starting"

/-- `func (c *CheckJobStatusResponse) IsProcessing() bool`. -/
def CheckJobStatusResponse.IsProcessing (c : CheckJobStatusResponse) : Bool :=
  c.status == "processing"

/-- `func (c *CheckJobStatusResponse) IsCompleted() bool`. -/
def CheckJobStatusResponse.IsCompleted (c : CheckJobStatusResponse) : Bool :=
  c.status == "completed"

/-- `CreditBalanceResponse` struct. -/
structure CreditBalanceResponse where
  balance : Int := 0
  success : Bool := false
  message : String := ""

/-- `func (v *CreditBalanceResponse) Error() error`. -/
def CreditBalanceResponse.Error (v : CreditBalanceResponse) : Option GoError :=
  if !v.success then
    if v.message != "" then some (.serviceMessage v.message)
    else some ErrUnknownErrorVerifyingEmail
  else none

/-- `DisposableEmailCheckResponse` struct. -/
structure DisposableEmailCheckResponse where
  disposable : Bool := false

/-! ## Transport and service-call pipeline

`doRequest` executes the round trip through the injected `http.Client` and
reads the body with `ioutil.ReadAll`.  The behaviour of that external
transport on a given call is the input of the embedding: either a failure
(of `Do` or of `ReadAll`, both of which make `doRequest` return a nil body
and the error) or a status code together with the raw body bytes. -/

/-- Outcome of the external HTTP transport for one call: a transport-level
failure message, or `(status code, body bytes)`. -/
abbrev TransportOutcome := Except String (Nat × List Char)

/-- `func (c *Client) doRequest(request) (int, []byte, error)`: delegates to
`c.httpClient.Do` and `ioutil.ReadAll`, forwarding any failure, else
returning the status code and the fully read body. -/
def doRequest (t : TransportOutcome) : Except String (Nat × List Char) :=
  match t with
  | .error e => .error e
  | .ok (status, body) => .ok (status, body)

/-- `func (c *Client) callService(request) ([]byte, error)`: wraps a
transport failure as `fmt.Errorf("Error doing request: %s", err)`, maps a
zero-length body to `ErrEmptyResponse` (the status code returned by
`doRequest` is discarded), and otherwise returns the body bytes. -/
def callService (t : TransportOutcome) : Except GoError (List Char) :=
  match doRequest t with
  | .error e => .error (.requestFailed ("Error doing request: " ++ e))
  | .ok (_, body) =>
    if body.length = 0 then .error ErrEmptyResponse else .ok body

/-- Common shape of the five `call*Service` functions, generic in the
response type.  `build` is the outcome of `c.buildRequest(...)` (early
return on failure); `unmarshal` is the `json.Unmarshal` call for the
response struct of the operation.  Faithful to the Go source, the error
returned by `callService` is NOT examined before unmarshalling: when
`callService` fails the body is nil, `json.Unmarshal` runs on that nil
slice, and its error (if any) is returned; only when unmarshalling
succeeds does the final `return &response, err` propagate the pending
`callService` error. -/
def callTypedService {R : Type} (build : Except String Unit)
    (t : TransportOutcome) (unmarshal : List Char → Except String R) :
    Option R × Option GoError :=
  match build with
  | .error e => (none, some (.buildFailed e))
  | .ok _ =>
    let serviceResult := callService t
    let body : List Char := match serviceResult with
      | .ok b => b
      | .error _ => []
    let pending : Option GoError := match serviceResult with
      | .ok _ => none
      | .error e => some e
    match unmarshal body with
    | .error m => (none, some (.unmarshalFailed m))
    | .ok response => (some response, pending)

/-- `func (c *Client) callVerifyService(segments, params) (*VerifyResponse, error)`. -/
def callVerifyService (build : Except String Unit) (t : TransportOutcome)
    (unmarshal : List Char → Except String VerifyResponse) :
    Option VerifyResponse × Option GoError :=
  callTypedService build t unmarshal

/-- `func (c *Client) callVerifyMultipleService(headers, segments, params, data)`.
The extra header map is attached to the request (see
`verifyMultipleHeaders`) and does not alter the error plumbing. -/
def callVerifyMultipleService (_headers : List (String × String))
    (build : Except String Unit) (t : TransportOutcome)
    (unmarshal : List Char → Except String VerifyMultipleResponse) :
    Option VerifyMultipleResponse × Option GoError :=
  callTypedService build t unmarshal

/-- `func (c *Client) callCheckJobStatusService(segments)`. -/
def callCheckJobStatusService (build : Except String Unit)
    (t : TransportOutcome)
    (unmarshal : List Char → Except String CheckJobStatusResponse) :
    Option CheckJobStatusResponse × Option GoError :=
  callTypedService build t unmarshal

/-- `func (c *Client) callCreditBalanceService(segments)`. -/
def callCreditBalanceService (build : Except String Unit)
    (t : TransportOutcome)
    (unmarshal : List Char → Except String CreditBalanceResponse) :
    Option CreditBalanceResponse × Option GoError :=
  callTypedService build t unmarshal

/-- `func (c *Client) callDisposableService(segments)`. -/
def callDisposableService (build : Except String Unit)
    (t : TransportOutcome)
    (unmarshal : List Char → Except String DisposableEmailCheckResponse) :
    Option DisposableEmailCheckResponse × Option GoError :=
  callTypedService build t unmarshal

/-- A Go `(T*, error)` pair with exactly one non-nil component. -/
def exclusiveOutcome {R : Type} (p : Option R × Option GoError) : Prop :=
  (p.1.isSome = true ∧ p.2 = none) ∨ (p.1 = none ∧ p.2.isSome = true)

/-- On any build/transport outcome, provided unmarshalling a zero-length
input fails (as `json.Unmarshal` always does), the pair returned by the
common service-call shape has exactly one non-nil component. -/
theorem callTypedService_exclusive {R : Type} (build : Except String Unit)
    (t : TransportOutcome) (unmarshal : List Char → Except String R)
    (h : ∃ m, unmarshal [] = .error m) :
    exclusiveOutcome (callTypedService build t unmarshal) := by
  obtain ⟨m, hm⟩ := h
  cases build with
  | error e => simp [callTypedService, exclusiveOutcome]
  | ok u =>
    cases hcs : callService t with
    | error e =>
      simp [callTypedService, exclusiveOutcome, hcs, hm]
    | ok b =>
      cases hu : unmarshal b with
      | error m2 => simp [callTypedService, exclusiveOutcome, hcs, hu]
      | ok r => simp [callTypedService, exclusiveOutcome, hcs, hu]

/-- When `callService` reports an error, the body handed to
`json.Unmarshal` is the nil slice, so the pending error is replaced by the
unmarshal error. -/
theorem callTypedService_error_masked {R : Type} (t : TransportOutcome)
    (unmarshal : List Char → Except String R) (e : GoError) (m : String)
    (hcs : callService t = .error e) (hm : unmarshal [] = .error m) :
    callTypedService (.ok ()) t unmarshal = (none, some (.unmarshalFailed m)) := by
  simp [callTypedService, hcs, hm]

/-- On a successful transport round trip with a non-empty body that
unmarshals, the common service-call shape returns the decoded response and
a nil error, for every status code. -/
theorem callTypedService_decodes {R : Type} (status : Nat) (body : List Char)
    (unmarshal : List Char → Except String R) (r : R)
    (hb : body ≠ []) (hu : unmarshal body = .ok r) :
    callTypedService (.ok ()) (.ok (status, body)) unmarshal = (some r, none) := by
  have hlen : ¬ body.length = 0 := by
    simpa using hb
  simp [callTypedService, callService, doRequest, hlen, hu]

/-! ## Claim theorems on the service-call pipeline -/

/-- C1 (refuting theorem): on an HTTP 200 round trip with a zero-length
body, `callService` does produce the `ErrEmptyResponse` sentinel, but each
of the five operations then unmarshals the nil body, so the error actually
returned to the caller is the `json.Unmarshal` failure, never
`ErrEmptyResponse` (the result is nil as claimed). -/
theorem emptyBody_sentinel_is_masked :
    callService (.ok (200, [])) = .error ErrEmptyResponse
    ∧ (∀ u m, u [] = Except.error m →
        callVerifyService (.ok ()) (.ok (200, [])) u
          = (none, some (.unmarshalFailed m))
        ∧ ∀ r, callVerifyService (.ok ()) (.ok (200, [])) u
          ≠ (r, some ErrEmptyResponse))
    ∧ (∀ hs u m, u [] = Except.error m →
        callVerifyMultipleService hs (.ok ()) (.ok (200, [])) u
          = (none, some (.unmarshalFailed m))
        ∧ ∀ r, callVerifyMultipleService hs (.ok ()) (.ok (200, [])) u
          ≠ (r, some ErrEmptyResponse))
    ∧ (∀ u m, u [] = Except.error m →
        callCheckJobStatusService (.ok ()) (.ok (200, [])) u
          = (none, some (.unmarshalFailed m))
        ∧ ∀ r, callCheckJobStatusService (.ok ()) (.ok (200, [])) u
          ≠ (r, some ErrEmptyResponse))
    ∧ (∀ u m, u [] = Except.error m →
        callCreditBalanceService (.ok ()) (.ok (200, [])) u
          = (none, some (.unmarshalFailed m))
        ∧ ∀ r, callCreditBalanceService (.ok ()) (.ok (200, [])) u
          ≠ (r, some ErrEmptyResponse))
    ∧ (∀ u m, u [] = Except.error m →
        callDisposableService (.ok ()) (.ok (200, [])) u
          = (none, some (.unmarshalFailed m))
        ∧ ∀ r, callDisposableService (.ok ()) (.ok (200, [])) u
          ≠ (r, some ErrEmptyResponse)) := by
  have hcs : callService (.ok (200, [])) = .error ErrEmptyResponse := rfl
  refine ⟨hcs, ?_, ?_, ?_, ?_, ?_⟩
  · intro u m hm
    have h := callTypedService_error_masked (.ok (200, [])) u ErrEmptyResponse m hcs hm
    exact ⟨h, fun r => by rw [callVerifyService, h]; simp [ErrEmptyResponse]⟩
  · intro hs u m hm
    have h := callTypedService_error_masked (.ok (200, [])) u ErrEmptyResponse m hcs hm
    exact ⟨h, fun r => by rw [callVerifyMultipleService, h]; simp [ErrEmptyResponse]⟩
  · intro u m hm
    have h := callTypedService_error_masked (.ok (200, [])) u ErrEmptyResponse m hcs hm
    exact ⟨h, fun r => by rw [callCheckJobStatusService, h]; simp [ErrEmptyResponse]⟩
  · intro u m hm
    have h := callTypedService_error_masked (.ok (200, [])) u ErrEmptyResponse m hcs hm
    exact ⟨h, fun r => by rw [callCreditBalanceService, h]; simp [ErrEmptyResponse]⟩
  · intro u m hm
    have h := callTypedService_error_masked (.ok (200, [])) u ErrEmptyResponse m hcs hm
    exact ⟨h, fun r => by rw [callDisposableService, h]; simp [ErrEmptyResponse]⟩

/-- C1 witness: the refuting theorem evaluated at the failing input, with
the documented `json.Unmarshal` behaviour on empty input. -/
theorem emptyBody_sentinel_is_masked_witness :
    callVerifyService (.ok ()) (.ok (200, []))
        (fun _ => Except.error "unexpected end of JSON input")
      = (none, some (.unmarshalFailed "unexpected end of JSON input")) :=
  (emptyBody_sentinel_is_masked.2.1
    (fun _ => Except.error "unexpected end of JSON input")
    "unexpected end of JSON input" rfl).1

/-- C2 (refuting theorem): on a transport-level failure, `callService` does
wrap the failure as the `"Error doing request: ..."` error, but each of
the five operations then unmarshals the nil body, so the error actually
returned to the caller is the `json.Unmarshal` failure, never the
transport wrapper. -/
theorem transportError_wrapper_is_masked :
    (∀ e, callService (.error e)
      = .error (.requestFailed ("Error doing request: " ++ e)))
    ∧ (∀ e u m, u [] = Except.error m →
        callVerifyService (.ok ()) (.error e) u
          = (none, some (.unmarshalFailed m))
        ∧ ∀ r s, callVerifyService (.ok ()) (.error e) u
          ≠ (r, some (.requestFailed s)))
    ∧ (∀ e hs u m, u [] = Except.error m →
        callVerifyMultipleService hs (.ok ()) (.error e) u
          = (none, some (.unmarshalFailed m))
        ∧ ∀ r s, callVerifyMultipleService hs (.ok ()) (.error e) u
          ≠ (r, some (.requestFailed s)))
    ∧ (∀ e u m, u [] = Except.error m →
        callCheckJobStatusService (.ok ()) (.error e) u
          = (none, some (.unmarshalFailed m))
        ∧ ∀ r s, callCheckJobStatusService (.ok ()) (.error e) u
          ≠ (r, some (.requestFailed s)))
    ∧ (∀ e u m, u [] = Except.error m →
        callCreditBalanceService (.ok ()) (.error e) u
          = (none, some (.unmarshalFailed m))
        ∧ ∀ r s, callCreditBalanceService (.ok ()) (.error e) u
          ≠ (r, some (.requestFailed s)))
    ∧ (∀ e u m, u [] = Except.error m →
        callDisposableService (.ok ()) (.error e) u
          = (none, some (.unmarshalFailed m))
        ∧ ∀ r s, callDisposableService (.ok ()) (.error e) u
          ≠ (r, some (.requestFailed s))) := by
  have hcs : ∀ e, callService (.error e)
      = .error (.requestFailed ("Error doing request: " ++ e)) := fun _ => rfl
  refine ⟨hcs, ?_, ?_, ?_, ?_, ?_⟩
  · intro e u m hm
    have h := callTypedService_error_masked (.error e) u _ m (hcs e) hm
    exact ⟨h, fun r s => by rw [callVerifyService, h]; simp⟩
  · intro e hs u m hm
    have h := callTypedService_error_masked (.error e) u _ m (hcs e) hm
    exact ⟨h, fun r s => by rw [callVerifyMultipleService, h]; simp⟩
  · intro e u m hm
    have h := callTypedService_error_masked (.error e) u _ m (hcs e) hm
    exact ⟨h, fun r s => by rw [callCheckJobStatusService, h]; simp⟩
  · intro e u m hm
    have h := callTypedService_error_masked (.error e) u _ m (hcs e) hm
    exact ⟨h, fun r s => by rw [callCreditBalanceService, h]; simp⟩
  · intro e u m hm
    have h := callTypedService_error_masked (.error e) u _ m (hcs e) hm
    exact ⟨h, fun r s => by rw [callDisposableService, h]; simp⟩

/-- C2 witness: the refuting theorem evaluated at a concrete transport
failure. -/
theorem transportError_wrapper_is_masked_witness :
    callVerifyService (.ok ()) (.error "connection refused")
        (fun _ => Except.error "unexpected end of JSON input")
      = (none, some (.unmarshalFailed "unexpected end of JSON input")) :=
  (transportError_wrapper_is_masked.2.1 "connection refused"
    (fun _ => Except.error "unexpected end of JSON input")
    "unexpected end of JSON input" rfl).1

/-- C3: the HTTP status code never short-circuits decoding.  For every
status code (in particular 400) and every non-empty body that unmarshals
to a response, each operation returns that response with a nil error; for
the enveloped responses, when the decoded success flag is false and the
message is populated, the `Error()` method of the result reports exactly that message. -/
theorem status_never_short_circuits :
    ∀ (status : Nat) (body : List Char), body ≠ [] →
    (∀ u r, u body = Except.ok r →
      callVerifyService (.ok ()) (.ok (status, body)) u = (some r, none)
      ∧ (r.success = false → r.message ≠ "" →
          r.Error = some (.serviceMessage r.message)))
    ∧ (∀ hs u r, u body = Except.ok r →
      callVerifyMultipleService hs (.ok ()) (.ok (status, body)) u = (some r, none)
      ∧ (r.success = false → r.message ≠ "" →
          r.Error = some (.serviceMessage r.message)))
    ∧ (∀ u r, u body = Except.ok r →
      callCheckJobStatusService (.ok ()) (.ok (status, body)) u = (some r, none))
    ∧ (∀ u r, u body = Except.ok r →
      callCreditBalanceService (.ok ()) (.ok (status, body)) u = (some r, none)
      ∧ (r.success = false → r.message ≠ "" →
          r.Error = some (.serviceMessage r.message)))
    ∧ (∀ u r, u body = Except.ok r →
      callDisposableService (.ok ()) (.ok (status, body)) u = (some r, none)) := by
  intro status body hb
  refine ⟨?_, ?_, ?_, ?_, ?_⟩
  · intro u r hu
    refine ⟨callTypedService_decodes status body u r hb hu, ?_⟩
    intro hs hmsg
    simp [VerifyResponse.Error, hs, hmsg]
  · intro hs u r hu
    refine ⟨callTypedService_decodes status body u r hb hu, ?_⟩
    intro hsuc hmsg
    simp [VerifyMultipleResponse.Error, hsuc, hmsg]
  · intro u r hu
    exact callTypedService_decodes status body u r hb hu
  · intro u r hu
    refine ⟨callTypedService_decodes status body u r hb hu, ?_⟩
    intro hsuc hmsg
    simp [CreditBalanceResponse.Error, hsuc, hmsg]
  · intro u r hu
    exact callTypedService_decodes status body u r hb hu

/-- C3 witness: an HTTP 400 round trip whose well-formed JSON error body
decodes to `success:false` with a populated message still yields a nil
returned error, and the `Error()` method of the result carries the message. -/
theorem status_never_short_circuits_witness :
    callVerifyService (.ok ())
        (.ok (400, ("\x7b\"message\": \"An error message describing the problem\", \"success\": false\x7d").toList))
        (fun _ => Except.ok
          { success := false, message := "An error message describing the problem" })
      = (some { success := false,
                message := "An error message describing the problem" }, none)
    ∧ (VerifyResponse.Error
        { success := false, message := "An error message describing the problem" })
      = some (.serviceMessage "An error message describing the problem") := by
  have h := (status_never_short_circuits 400
      ("\x7b\"message\": \"An error message describing the problem\", \"success\": false\x7d").toList
      (by decide)).1
      (fun _ => Except.ok
        ({ success := false,
           message := "An error message describing the problem" } : VerifyResponse))
      { success := false, message := "An error message describing the problem" }
      rfl
  exact ⟨h.1, h.2 rfl (by decide)⟩

/-- C10: on every build outcome and every transport outcome, provided
unmarshalling a zero-length input fails (as `json.Unmarshal` always does),
every operation returns a pair with exactly one non-nil component: a nil
result with a non-nil error, or a non-nil result with a nil error. -/
theorem result_error_exclusive :
    ∀ (build : Except String Unit) (t : TransportOutcome),
    (∀ u : List Char → Except String VerifyResponse,
      (∃ m, u [] = Except.error m) →
      exclusiveOutcome (callVerifyService build t u))
    ∧ (∀ (hs : List (String × String))
        (u : List Char → Except String VerifyMultipleResponse),
      (∃ m, u [] = Except.error m) →
      exclusiveOutcome (callVerifyMultipleService hs build t u))
    ∧ (∀ u : List Char → Except String CheckJobStatusResponse,
      (∃ m, u [] = Except.error m) →
      exclusiveOutcome (callCheckJobStatusService build t u))
    ∧ (∀ u : List Char → Except String CreditBalanceResponse,
      (∃ m, u [] = Except.error m) →
      exclusiveOutcome (callCreditBalanceService build t u))
    ∧ (∀ u : List Char → Except String DisposableEmailCheckResponse,
      (∃ m, u [] = Except.error m) →
      exclusiveOutcome (callDisposableService build t u)) := by
  intro build t
  exact ⟨fun u h => callTypedService_exclusive build t u h,
    fun hs u h => callTypedService_exclusive build t u h,
    fun u h => callTypedService_exclusive build t u h,
    fun u h => callTypedService_exclusive build t u h,
    fun u h => callTypedService_exclusive build t u h⟩

/-- C10 witness: the exclusivity property instantiated on a concrete
successful round trip. -/
theorem result_error_exclusive_witness :
    exclusiveOutcome (callVerifyService (.ok ()) (.ok (200, ['x']))
      (fun b => if b.isEmpty then Except.error "unexpected end of JSON input"
                else Except.ok {})) :=
  (result_error_exclusive (.ok ()) (.ok (200, ['x']))).1
    (fun b => if b.isEmpty then Except.error "unexpected end of JSON input"
              else Except.ok {})
    ⟨"unexpected end of JSON input", rfl⟩

/-! ## Claim theorems on the decoded-response predicates -/

/-- C4: for `VerifyResponse`, `VerifyMultipleResponse` and
`CreditBalanceResponse`, `Error()` is nil iff the decoded success flag is
true; when the flag is false it carries exactly the decoded message when
non-empty and the generic unknown-verification-error otherwise. -/
theorem envelope_error_iff_success :
    (∀ v : VerifyResponse,
      (v.Error = none ↔ v.success = true)
      ∧ (v.success = false → v.message ≠ "" →
          v.Error = some (.serviceMessage v.message))
      ∧ (v.success = false → v.message = "" →
          v.Error = some ErrUnknownErrorVerifyingEmail))
    ∧ (∀ v : VerifyMultipleResponse,
      (v.Error = none ↔ v.success = true)
      ∧ (v.success = false → v.message ≠ "" →
          v.Error = some (.serviceMessage v.message))
      ∧ (v.success = false → v.message = "" →
          v.Error = some ErrUnknownErrorVerifyingEmail))
    ∧ (∀ v : CreditBalanceResponse,
      (v.Error = none ↔ v.success = true)
      ∧ (v.success = false → v.message ≠ "" →
          v.Error = some (.serviceMessage v.message))
      ∧ (v.success = false → v.message = "" →
          v.Error = some ErrUnknownErrorVerifyingEmail)) := by
  refine ⟨?_, ?_, ?_⟩ <;>
    · intro v
      by_cases hm : v.message = "" <;> cases hs : v.success <;>
        simp [VerifyResponse.Error, VerifyMultipleResponse.Error,
          CreditBalanceResponse.Error, hs, hm]

/-- C4 witness: the predicate evaluated on concrete decoded responses. -/
theorem envelope_error_iff_success_witness :
    VerifyResponse.Error { success := false, message := "boom" }
      = some (.serviceMessage "boom")
    ∧ VerifyMultipleResponse.Error { success := false }
      = some ErrUnknownErrorVerifyingEmail
    ∧ CreditBalanceResponse.Error { balance := 1337, success := true } = none :=
  ⟨(envelope_error_iff_success.1 { success := false, message := "boom" }).2.1
      rfl (by decide),
   (envelope_error_iff_success.2.1 { success := false }).2.2 rfl rfl,
   ((envelope_error_iff_success.2.2 { balance := 1337, success := true }).1).mpr rfl⟩

/-- C5: `IsValid()` holds iff the decoded result category is exactly
`"deliverable"`; any other result string gives `false`. -/
theorem isValid_iff_deliverable :
    ∀ v : VerifyResponse,
      (v.IsValid = true ↔ v.result = "deliverable")
      ∧ (v.result ≠ "deliverable" → v.IsValid = false) := by
  intro v
  constructor
  · simp [VerifyResponse.IsValid]
  · intro h
    simp [VerifyResponse.IsValid, h]

/-- C5 witness: `IsValid` on a deliverable and on a risky result. -/
theorem isValid_iff_deliverable_witness :
    VerifyResponse.IsValid { result := "deliverable" } = true
    ∧ VerifyResponse.IsValid { result := "risky" } = false :=
  ⟨(isValid_iff_deliverable { result := "deliverable" }).1.mpr rfl,
   (isValid_iff_deliverable { result := "risky" }).2 (by decide)⟩

/-- C6: the three job-status predicates hold exactly on `"starting"`,
`"processing"` and `"completed"` respectively, are pairwise mutually
exclusive, and are all false on any other status value. -/
theorem jobStatus_predicates :
    ∀ c : CheckJobStatusResponse,
      (c.IsStarting = true ↔ c.status = "starting")
      ∧ (c.IsProcessing = true ↔ c.status = "processing")
      ∧ (c.IsCompleted = true ↔ c.status = "completed")
      ∧ ¬(c.IsStarting = true ∧ c.IsProcessing = true)
      ∧ ¬(c.IsStarting = true ∧ c.IsCompleted = true)
      ∧ ¬(c.IsProcessing = true ∧ c.IsCompleted = true)
      ∧ (c.status ≠ "starting" → c.status ≠ "processing" →
          c.status ≠ "completed" →
          c.IsStarting = false ∧ c.IsProcessing = false
          ∧ c.IsCompleted = false) := by
  intro c
  refine ⟨by simp [CheckJobStatusResponse.IsStarting],
    by simp [CheckJobStatusResponse.IsProcessing],
    by simp [CheckJobStatusResponse.IsCompleted], ?_, ?_, ?_, ?_⟩
  · rintro ⟨h1, h2⟩
    simp [CheckJobStatusResponse.IsStarting] at h1
    simp [CheckJobStatusResponse.IsProcessing] at h2
    rw [h1] at h2
    exact absurd h2 (by decide)
  · rintro ⟨h1, h2⟩
    simp [CheckJobStatusResponse.IsStarting] at h1
    simp [CheckJobStatusResponse.IsCompleted] at h2
    rw [h1] at h2
    exact absurd h2 (by decide)
  · rintro ⟨h1, h2⟩
    simp [CheckJobStatusResponse.IsProcessing] at h1
    simp [CheckJobStatusResponse.IsCompleted] at h2
    rw [h1] at h2
    exact absurd h2 (by decide)
  · intro h1 h2 h3
    refine ⟨?_, ?_, ?_⟩
    · simp [CheckJobStatusResponse.IsStarting, h1]
    · simp [CheckJobStatusResponse.IsProcessing, h2]
    · simp [CheckJobStatusResponse.IsCompleted, h3]

/-- C6 witness: the predicates on a `"processing"` status and on a status
outside the three named values. -/
theorem jobStatus_predicates_witness :
    ({ status := "processing" } : CheckJobStatusResponse).IsProcessing = true
    ∧ (({ status := "paused" } : CheckJobStatusResponse).IsStarting = false
      ∧ ({ status := "paused" } : CheckJobStatusResponse).IsProcessing = false
      ∧ ({ status := "paused" } : CheckJobStatusResponse).IsCompleted = false) :=
  ⟨(jobStatus_predicates { status := "processing" }).2.1.mpr rfl,
   (jobStatus_predicates { status := "paused" }).2.2.2.2.2.2
     (by decide) (by decide) (by decide)⟩

/-! ## Endpoint registry and request building

`buildRequest` substitutes `\x7bKEY\x7d` tokens in the path template via
`strings.Replace(path, "\x7b"+search+"\x7d", replace, -1)` and injects
`params["apikey"] = c.apiKey`; `buildURL` encodes the query parameters the
way `Values.Encode` of `net/url` does (keys sorted bytewise, keys and
values percent-encoded in query mode).  Go map iteration order is
unspecified; the embedding fixes the source-literal order of each map, and
every theorem below is about inputs on which the result does not depend
on that order (distinct keys, substituted values free of placeholder
tokens). -/

/-- Model of `strings.Replace(s, old, new, -1)` on char lists: leftmost,
non-overlapping, all occurrences, never rescanning replacements.  The
`Nat` fuel is the length of the remaining input, which bounds the
recursion; callers never pass an empty pattern. -/
def replaceAllAux (pat rep : List Char) : Nat → List Char → List Char
  | _, [] => []
  | 0, s => s
  | fuel + 1, c :: rest =>
    if !pat.isEmpty && pat.isPrefixOf (c :: rest) then
      rep ++ replaceAllAux pat rep fuel (List.drop (pat.length - 1) rest)
    else
      c :: replaceAllAux pat rep fuel rest

/-- `strings.Replace(s, pat, rep, -1)`. -/
def replaceAll (s pat rep : String) : String :=
  String.mk (replaceAllAux pat.toList rep.toList s.toList.length s.toList)

/-- `Endpoint` struct. -/
structure Endpoint where
  Method : String
  Path : String

/-- `ServiceType` enumeration. -/
inductive ServiceType where
  | Verify
  | VerifyMultiple
  | CheckJobStatus
  | CreditBalance
  | DisposableEmailCheck
  deriving DecidableEq

/-- The `Endpoints` map, as a total lookup over the closed enumeration. -/
def Endpoints : ServiceType → Endpoint
  | .Verify => ⟨"GET", "/\x7bAPI_VERSION\x7d/verify"⟩
  | .VerifyMultiple => ⟨"PUT", "/\x7bAPI_VERSION\x7d/verify-batch"⟩
  | .CheckJobStatus => ⟨"GET", "/\x7bAPI_VERSION\x7d/verify-batch/\x7bJOB_ID\x7d"⟩
  | .CreditBalance => ⟨"GET", "/\x7bAPI_VERSION\x7d/balance"⟩
  | .DisposableEmailCheck => ⟨"GET", "/\x7bAPI_VERSION\x7d/disposable/\x7bEMAIL_ADDRESS\x7d"⟩

/-- The segment-substitution loop of `buildRequest`: for each map entry,
`path = strings.Replace(path, "\x7b"+search+"\x7d", replace, -1)`. -/
def realizePath (path : String) (segments : List (String × String)) : String :=
  segments.foldl (fun p kv => replaceAll p ("\x7b" ++ kv.1 ++ "\x7d") kv.2) path

/-- Segment map built by `Client.Verify`. -/
def verifySegments : List (String × String) := [("API_VERSION", "v2")]

/-- Segment map built by `Client.VerifyMultiple`. -/
def verifyMultipleSegments : List (String × String) := [("API_VERSION", "v2")]

/-- Segment map built by `Client.CheckJobStatus` (`strconv.Itoa(jobID)`). -/
def checkJobStatusSegments (jobID : Int) : List (String × String) :=
  [("API_VERSION", "v2"), ("JOB_ID", toString jobID)]

/-- Segment map built by `Client.CreditBalance`. -/
def creditBalanceSegments : List (String × String) := [("API_VERSION", "v2")]

/-- Segment map built by `Client.Disposable`. -/
def disposableSegments (email : String) : List (String × String) :=
  [("API_VERSION", "v1"), ("EMAIL_ADDRESS", email)]

/-- Query-parameter map built by `Client.Verify`. -/
def verifyParams (email : String) : List (String × String) := [("email", email)]

/-- Query-parameter map built by `Client.VerifyMultiple` (empty). -/
def verifyMultipleParams : List (String × String) := []

/-- Query-parameter map passed by `callCheckJobStatusService` (empty). -/
def checkJobStatusParams : List (String × String) := []

/-- Query-parameter map passed by `callCreditBalanceService` (empty). -/
def creditBalanceParams : List (String × String) := []

/-- Query-parameter map passed by `callDisposableService` (empty). -/
def disposableParams : List (String × String) := []

/-- Go map assignment `params[k] = v`: overwrite the entry when the key is
present, append it otherwise. -/
def setParam (params : List (String × String)) (k v : String) :
    List (String × String) :=
  if params.any (fun kv => kv.1 == k) then
    params.map (fun kv => if kv.1 == k then (k, v) else kv)
  else params ++ [(k, v)]

/-- UTF-8 bytes of a character (Go strings are UTF-8 byte sequences and
`net/url` escapes byte by byte). -/
def utf8Bytes (c : Char) : List Nat :=
  let n := c.toNat
  if n < 0x80 then [n]
  else if n < 0x800 then [0xC0 + n / 0x40, 0x80 + n % 0x40]
  else if n < 0x10000 then
    [0xE0 + n / 0x1000, 0x80 + (n / 0x40) % 0x40, 0x80 + n % 0x40]
  else
    [0xF0 + n / 0x40000, 0x80 + (n / 0x1000) % 0x40,
      0x80 + (n / 0x40) % 0x40, 0x80 + n % 0x40]

/-- Bytes `net/url` leaves unescaped in a query component: ASCII
alphanumerics and `-._~`. -/
def isUnescapedQueryByte (b : Nat) : Bool :=
  decide ((0x41 ≤ b ∧ b ≤ 0x5A) ∨ (0x61 ≤ b ∧ b ≤ 0x7A) ∨ (0x30 ≤ b ∧ b ≤ 0x39)
    ∨ b = 0x2D ∨ b = 0x5F ∨ b = 0x2E ∨ b = 0x7E)

/-- Uppercase hexadecimal digit, as used by `net/url` percent-escapes. -/
def hexUpperDigit (n : Nat) : Char :=
  if n < 10 then Char.ofNat (48 + n) else Char.ofNat (55 + n)

/-- Escape of one byte in a query component: kept verbatim, space to `+`,
otherwise `%XX`. -/
def escapeQueryByte (b : Nat) : List Char :=
  if isUnescapedQueryByte b then [Char.ofNat b]
  else if b = 0x20 then ['+']
  else ['%', hexUpperDigit (b / 16), hexUpperDigit (b % 16)]

/-- `url.QueryEscape`. -/
def queryEscape (s : String) : String :=
  String.mk ((s.toList.flatMap utf8Bytes).flatMap escapeQueryByte)

/-- Go bytewise-lexicographic string order (`sort.Strings`), on char
lists; on UTF-8 data byte order and code-point order agree. -/
def lexLeChars : List Char → List Char → Bool
  | [], _ => true
  | _ :: _, [] => false
  | a :: as, b :: bs =>
    if a = b then lexLeChars as bs else decide (a.toNat < b.toNat)

/-- Key order used by `url.Values.Encode` when sorting parameters. -/
def keyLe (a b : String × String) : Prop :=
  lexLeChars a.1.toList b.1.toList = true

instance : DecidableRel keyLe := fun a b => by
  unfold keyLe
  infer_instance

/-- The key sort performed by `url.Values.Encode`. -/
def sortParams (params : List (String × String)) : List (String × String) :=
  params.insertionSort keyLe

/-- `&`-joining of encoded `key=value` components, as `Values.Encode`
writes them. -/
def joinQuery : List String → String
  | [] => ""
  | [p] => p
  | p :: rest => p ++ "&" ++ joinQuery rest

/-- `url.Values.Encode` over a parameter map with unique keys: sort by
key, percent-encode keys and values, join with `&`. -/
def encodeQuery (params : List (String × String)) : String :=
  joinQuery ((sortParams params).map
    (fun kv => queryEscape kv.1 ++ "=" ++ queryEscape kv.2))

/-- The `key=value` pairs of the realized query string of a request built
with caller parameters `params` by a client whose API key is `apiKey`
(after the `params["apikey"] = c.apiKey` assignment in `buildRequest`), each component
percent-encoded as by `Values.Encode`. -/
def realizedQueryPairs (params : List (String × String)) (apiKey : String) :
    List (String × String) :=
  (sortParams (setParam params "apikey" apiKey)).map
    (fun kv => (queryEscape kv.1, queryEscape kv.2))

/-- Header map built by `Client.VerifyMultiple`: each of the two optional
headers is added only when its source value is non-empty. -/
def verifyMultipleHeaders (urlCallback filename : String) :
    List (String × String) :=
  (if urlCallback != "" then [("X-Kickbox-Callback", urlCallback)] else [])
  ++ (if filename != "" then [("X-Kickbox-Filename", filename)] else [])

/-- Substituting any replacement string for `\x7bJOB_ID\x7d` in the
already-versioned CheckJobStatus template appends it to the fixed
path prefix. -/
theorem replaceAll_jobID (s : String) :
    replaceAll "/v2/verify-batch/\x7bJOB_ID\x7d" "\x7bJOB_ID\x7d" s
      = "/v2/verify-batch/" ++ s := by
  cases s with
  | mk data =>
    show String.mk _ = String.mk _
    simp [replaceAll, replaceAllAux, String.toList]

/-! ## Claim theorems on request building -/

/-- C7: segment substitution replaces every occurrence of a
`\x7bKEY\x7d` token by the value of the entry and leaves tokens with no
matching entry unchanged; `CheckJobStatus` realizes
`/v2/verify-batch/<jobID>`, in particular `/v2/verify-batch/415` for job
identifier 415. -/
theorem segment_substitution_exact :
    (∀ jobID : Int,
      realizePath (Endpoints .CheckJobStatus).Path (checkJobStatusSegments jobID)
        = "/v2/verify-batch/" ++ toString jobID)
    ∧ realizePath (Endpoints .CheckJobStatus).Path (checkJobStatusSegments 415)
        = "/v2/verify-batch/415"
    ∧ realizePath (Endpoints .CheckJobStatus).Path [("API_VERSION", "v2")]
        = "/v2/verify-batch/\x7bJOB_ID\x7d"
    ∧ realizePath "/\x7bK\x7d/fixed/\x7bK\x7d" [("K", "v")] = "/v/fixed/v" := by
  refine ⟨?_, by decide, by decide, by decide⟩
  intro jobID
  show realizePath "/\x7bAPI_VERSION\x7d/verify-batch/\x7bJOB_ID\x7d"
    [("API_VERSION", "v2"), ("JOB_ID", toString jobID)] = _
  simp only [realizePath, List.foldl]
  rw [show replaceAll "/\x7bAPI_VERSION\x7d/verify-batch/\x7bJOB_ID\x7d"
      ("\x7b" ++ "API_VERSION" ++ "\x7d") "v2" = "/v2/verify-batch/\x7bJOB_ID\x7d"
      from by decide]
  exact replaceAll_jobID (toString jobID)

/-- The realized query of a request built from an empty caller parameter
map holds exactly the injected API key. -/
theorem emptyParams_query (key : String) :
    ("apikey", queryEscape key) ∈ realizedQueryPairs [] key
    ∧ encodeQuery (setParam [] "apikey" key) = "apikey=" ++ queryEscape key := by
  constructor
  · simp [realizedQueryPairs, setParam, sortParams, List.insertionSort,
      List.orderedInsert, show queryEscape "apikey" = "apikey" from by decide]
  · simp only [encodeQuery, setParam, sortParams, List.insertionSort,
      List.orderedInsert, List.any_nil, List.nil_append, Bool.false_eq_true,
      if_false, List.map_cons, List.map_nil, joinQuery]
    apply String.ext
    simp only [String.data_append]
    rw [show queryEscape "apikey" = "apikey" from by decide]
    simp [List.append_assoc]

/-- The two-element parameter map of `Verify` sorts with `apikey` first. -/
theorem sortParams_verify (key email : String) :
    sortParams [("email", email), ("apikey", key)]
      = [("apikey", key), ("email", email)] := by
  simp only [sortParams, List.insertionSort, List.orderedInsert]
  have hk : ¬ keyLe ("email", email) ("apikey", key) := by
    show ¬ (lexLeChars "email".toList "apikey".toList = true)
    decide
  rw [if_neg hk]

/-- C8: for every operation and all caller-supplied arguments, the query
of the built request carries `apikey` set to the API key of the client next to
the operation-specific parameters, every component percent-encoded by
`url.QueryEscape`. -/
theorem apikey_always_in_query :
    ∀ (key email : String),
    (("apikey", queryEscape key) ∈ realizedQueryPairs (verifyParams email) key
      ∧ encodeQuery (setParam (verifyParams email) "apikey" key)
        = "apikey=" ++ queryEscape key ++ "&email=" ++ queryEscape email)
    ∧ (("apikey", queryEscape key) ∈ realizedQueryPairs verifyMultipleParams key
      ∧ encodeQuery (setParam verifyMultipleParams "apikey" key)
        = "apikey=" ++ queryEscape key)
    ∧ (("apikey", queryEscape key) ∈ realizedQueryPairs checkJobStatusParams key
      ∧ encodeQuery (setParam checkJobStatusParams "apikey" key)
        = "apikey=" ++ queryEscape key)
    ∧ (("apikey", queryEscape key) ∈ realizedQueryPairs creditBalanceParams key
      ∧ encodeQuery (setParam creditBalanceParams "apikey" key)
        = "apikey=" ++ queryEscape key)
    ∧ (("apikey", queryEscape key) ∈ realizedQueryPairs disposableParams key
      ∧ encodeQuery (setParam disposableParams "apikey" key)
        = "apikey=" ++ queryEscape key) := by
  intro key email
  have hset : setParam (verifyParams email) "apikey" key
      = [("email", email), ("apikey", key)] := by
    simp [setParam, verifyParams]
  refine ⟨⟨?_, ?_⟩, emptyParams_query key, emptyParams_query key,
    emptyParams_query key, emptyParams_query key⟩
  · simp [realizedQueryPairs, hset, sortParams_verify,
      show queryEscape "apikey" = "apikey" from by decide]
  · rw [encodeQuery, hset, sortParams_verify]
    simp only [List.map_cons, List.map_nil, joinQuery]
    apply String.ext
    simp only [String.data_append]
    rw [show queryEscape "apikey" = "apikey" from by decide,
      show queryEscape "email" = "email" from by decide]
    simp [List.append_assoc]

/-- C9: `VerifyMultiple` sends `X-Kickbox-Callback` exactly when the
callback argument is non-empty (with exactly the supplied value) and
omits it when empty; symmetrically for `X-Kickbox-Filename`. -/
theorem verifyMultiple_optional_headers :
    ∀ (urlCallback filename : String),
    (urlCallback ≠ "" →
      (verifyMultipleHeaders urlCallback filename).lookup "X-Kickbox-Callback"
        = some urlCallback)
    ∧ (urlCallback = "" →
      (verifyMultipleHeaders urlCallback filename).lookup "X-Kickbox-Callback"
        = none)
    ∧ (filename ≠ "" →
      (verifyMultipleHeaders urlCallback filename).lookup "X-Kickbox-Filename"
        = some filename)
    ∧ (filename = "" →
      (verifyMultipleHeaders urlCallback filename).lookup "X-Kickbox-Filename"
        = none) := by
  intro urlCallback filename
  by_cases hcb : urlCallback = "" <;> by_cases hfn : filename = "" <;>
    simp [verifyMultipleHeaders, hcb, hfn, List.lookup]

/-- C9 witness: the header map evaluated on concrete arguments, empty and
non-empty. -/
theorem verifyMultiple_optional_headers_witness :
    (verifyMultipleHeaders "http://callback.com" "filename.txt").lookup
        "X-Kickbox-Callback" = some "http://callback.com"
    ∧ (verifyMultipleHeaders "" "filename.txt").lookup
        "X-Kickbox-Callback" = none
    ∧ (verifyMultipleHeaders "http://callback.com" "").lookup
        "X-Kickbox-Filename" = none :=
  ⟨(verifyMultiple_optional_headers "http://callback.com" "filename.txt").1
      (by decide),
   (verifyMultiple_optional_headers "" "filename.txt").2.1 rfl,
   (verifyMultiple_optional_headers "http://callback.com" "").2.2.2 rfl⟩

